import Mathlib

/-!
Verification of the allockit page provider (allockit_page.h) and the
allocator dispatch surface (allockit.h).

The two platform builds of each page-provider function are embedded
separately, since the C source selects one of two function bodies with
conditional compilation.  Each embedded function takes the response of
the single OS primitive it may call as an explicit argument, and
returns, besides its C result, the list of OS calls it issued, so that
claims of the form "no OS call was performed" are statable.

Machine integers: size_t is modelled as Nat with SIZE_MAX equal to
2 ^ 64 - 1 and explicit reduction modulo 2 ^ 64 where C multiplication
may wrap.  A void pointer is a Nat, with 0 standing for the null
pointer.
-/

namespace Allockit

/-- SIZE_MAX of the modelled build: the C source defines it as
((size_t)(-1)) when absent, the all-ones value of size_t. -/
def SIZE_MAX : Nat := 2 ^ 64 - 1

/-- A C pointer value; 0 models the null pointer. -/
abbrev Ptr := Nat

/-- The null pointer. -/
def NULL : Ptr := 0

/-- struct AkPageChunk from allockit_page.h: a start pointer and a
page count. -/
structure AkPageChunk where
  start : Ptr
  count : Nat
deriving DecidableEq

/-- An OS primitive invocation issued by the page provider, with the
arguments the C code passes to it. -/
inductive OsCall where
  | mmap (addr : Ptr) (length : Nat) (fixed : Bool)
  | munmap (addr : Ptr) (length : Nat)
  | virtualAlloc (addr : Ptr) (length : Nat)
  | virtualFree (addr : Ptr)
deriving DecidableEq

/-- Response of one mmap call: MAP_FAILED, or the mapped address. -/
inductive MmapResult where
  | mapFailed
  | mapped (addr : Ptr)
deriving DecidableEq

/-- Response of one munmap call: 0 on success, -1 on failure, as the
comment in ak_page_returnPages records. -/
inductive MunmapResult where
  | ok
  | failed
deriving DecidableEq

/-- The C int value of a MunmapResult. -/
def MunmapResult.ret : MunmapResult → Int
  | .ok => 0
  | .failed => -1

/-- ak_page_getPageSize, Linux build: sysconf(_SC_PAGESIZE) is taken
as input (ssize_t); values not greater than 0 yield 0, otherwise the
value is returned cast to size_t. -/
def ak_page_getPageSize_linux (m_page_size : Int) : Nat :=
  if m_page_size ≤ 0 then 0 else m_page_size.toNat

/-- ak_page_getPageSize, Windows build: GetSystemInfo cannot fail; the
dwPageSize field it reports is returned cast to size_t. -/
def ak_page_getPageSize_windows (dwPageSize : Nat) : Nat :=
  dwPageSize

/-- ak_page_requestPages, Linux build.  The overflow check
(count && page_size > SIZE_MAX/count) precedes the single mmap call;
a non-null address hint adds MAP_FIXED; MAP_FAILED yields the
zero-initialized result chunk. -/
def ak_page_requestPages_linux (os : MmapResult)
    (page_size : Nat) (addr : Ptr) (count : Nat) :
    AkPageChunk × List OsCall :=
  let res : AkPageChunk := ⟨NULL, 0⟩
  if count ≠ 0 ∧ SIZE_MAX / count < page_size then
    (res, [])
  else
    let length := (page_size * count) % (SIZE_MAX + 1)
    let fixed : Bool := addr != NULL
    let call := OsCall.mmap addr length fixed
    match os with
    | .mapFailed => (res, [call])
    | .mapped m_addr => (⟨m_addr, count⟩, [call])

/-- ak_page_requestPages, Windows build.  The same overflow check
precedes the single VirtualAlloc call, whose returned base address
(NULL on failure) is taken as input; the source stores that address
and the requested count into the result without any failure check. -/
def ak_page_requestPages_windows (os : Ptr)
    (page_size : Nat) (addr : Ptr) (count : Nat) :
    AkPageChunk × List OsCall :=
  let res : AkPageChunk := ⟨NULL, 0⟩
  if count ≠ 0 ∧ SIZE_MAX / count < page_size then
    (res, [])
  else
    let length := (page_size * count) % (SIZE_MAX + 1)
    let m_addr := os
    (⟨m_addr, count⟩, [OsCall.virtualAlloc addr length])

/-- ak_page_returnPages, Linux build: length is page_size * count with
C wrap-around and no overflow check; res is the munmap return plus 1;
a nonzero res clears the chunk start.  Returns (res, updated chunk,
OS calls issued). -/
def ak_page_returnPages_linux (os : MunmapResult)
    (page_size : Nat) (pages : AkPageChunk) :
    Int × AkPageChunk × List OsCall :=
  let length := (page_size * pages.count) % (SIZE_MAX + 1)
  let res : Int := os.ret + 1
  let calls := [OsCall.munmap pages.start length]
  if res ≠ 0 then (res, { pages with start := NULL }, calls)
  else (res, pages, calls)

/-- ak_page_returnPages, Windows build: res is the BOOL returned by
VirtualFree(start, 0, MEM_RELEASE), taken as input; a nonzero res
clears the chunk start.  page_size is ignored by this build. -/
def ak_page_returnPages_windows (os : Int)
    (page_size : Nat) (pages : AkPageChunk) :
    Int × AkPageChunk × List OsCall :=
  let res : Int := os
  let calls := [OsCall.virtualFree pages.start]
  if res ≠ 0 then (res, { pages with start := NULL }, calls)
  else (res, pages, calls)

/-- One object-like or function-like preprocessor definition of
allockit.h: its name, parameter list, and replacement token list. -/
structure CDefine where
  name : String
  params : List String
  body : List String
deriving DecidableEq

/-- First definition of ak_alloc (allockit.h line 225). -/
def ak_alloc_define_v1 : CDefine :=
  ⟨"ak_alloc", ["pAlloc", "Size", "Align", "Count"],
   ["(", "(", "(", "pAlloc", ")", "->", "alloc", ")",
    "(", "(", "pAlloc", ")", ",", "Size", ",", "Align", ",", "Count",
    ")", ")"]⟩

/-- Second definition of ak_alloc (allockit.h line 227), redefining
the first with a different parameter list. -/
def ak_alloc_define_v2 : CDefine :=
  ⟨"ak_alloc", ["pAlloc", "T", "Count"],
   ["ak_alloc", "(", "pAlloc", ",", "sizeof", "(", "T", ")", ",",
    "ALLOCKIT_ALIGNOF", "(", "T", ")", ",", "Count", ")"]⟩

/-- First definition of ak_resize (allockit.h line 230). -/
def ak_resize_define_v1 : CDefine :=
  ⟨"ak_resize", ["pAlloc", "Addr", "Size", "Align", "Count"],
   ["(", "(", "(", "Alloc", ")", "->", "resize", ")",
    "(", "(", "pAlloc", ")", ",", "Addr", ",", "Size", ",", "Align",
    ",", "Count", ")", ")"]⟩

/-- Second definition of ak_resize (allockit.h line 232), redefining
the first with a different parameter list. -/
def ak_resize_define_v2 : CDefine :=
  ⟨"ak_resize", ["pAlloc", "Addr", "T", "Count"],
   ["ak_resize", "(", "pAlloc", ",", "Addr", ",", "sizeof", "(", "T",
    ")", ",", "ALLOCKIT_ALIGNOF", "(", "T", ")", ",", "Count", ")"]⟩

/-- Definition of ak_free (allockit.h line 235). -/
def ak_free_define : CDefine :=
  ⟨"ak_free", ["pAlloc", "Addr"],
   ["(", "(", "(", "Alloc", ")", "->", "free", ")",
    "(", "(", "pAlloc", ")", ",", "Addr", ")", ")"]⟩

/-- Claim C1: whenever page_size * count overflows size_t, both builds
of ak_page_requestPages return the null-start, zero-count chunk and
issue no OS call. -/
theorem requestPages_overflow_no_os_call
    (osL : MmapResult) (osW : Ptr) (page_size addr count : Nat)
    (h : SIZE_MAX < page_size * count) :
    ak_page_requestPages_linux osL page_size addr count = (⟨NULL, 0⟩, []) ∧
    ak_page_requestPages_windows osW page_size addr count = (⟨NULL, 0⟩, []) := by
  have hc : count ≠ 0 := by
    rintro rfl
    simp at h
  have hd : SIZE_MAX / count < page_size :=
    (Nat.div_lt_iff_lt_mul (Nat.pos_of_ne_zero hc)).mpr h
  constructor <;>
    simp [ak_page_requestPages_linux, ak_page_requestPages_windows, hc, hd]

/-- Witness for requestPages_overflow_no_os_call at page_size 2 ^ 63,
count 4, whose product 2 ^ 65 overflows size_t. -/
theorem requestPages_overflow_no_os_call_witness :
    ak_page_requestPages_linux .mapFailed (2 ^ 63) 0 4 = (⟨NULL, 0⟩, []) ∧
    ak_page_requestPages_windows NULL (2 ^ 63) 0 4 = (⟨NULL, 0⟩, []) :=
  requestPages_overflow_no_os_call .mapFailed NULL (2 ^ 63) 0 4 (by decide)

/-- Claim C2, code-bug evidence: on the Windows build a failing
VirtualAlloc (modelled by the NULL response) with page_size 4096 and
count 1 yields the chunk (NULL, 1), whose count is the requested 1
rather than 0; the source stores the VirtualAlloc result without any
failure check. -/
theorem requestPages_windows_failure_nonzero_count :
    ak_page_requestPages_windows NULL 4096 NULL 1 =
      (⟨NULL, 1⟩, [OsCall.virtualAlloc NULL 4096]) := by decide

/-- Claim C3 counterexample: after a successful ak_page_returnPages on
a 4-page chunk (Linux build), the chunk has a null start but count 4,
so the start-null-iff-count-zero invariant fails for a chunk updated
by a page-provider operation. -/
theorem chunk_invariant_counterexample :
    (ak_page_returnPages_linux .ok 4096 ⟨4096, 4⟩).2.1.start = NULL ∧
    (ak_page_returnPages_linux .ok 4096 ⟨4096, 4⟩).2.1.count ≠ 0 := by
  decide

/-- Claim C3 as amended: chunks returned by ak_page_requestPages
satisfy the invariant (start null iff count zero) on the Linux build,
given that mmap returns a non-null address and only succeeds on a
nonzero length; on the Windows build the same holds only when the
VirtualAlloc call succeeded; and ak_page_returnPages clears only the
start on success, keeping the count, so a released nonzero chunk has a
null start with a nonzero count. -/
theorem requestPages_chunk_invariant_amended
    (osL : MmapResult) (osW : Ptr) (page_size addr count : Nat)
    (hL : ∀ a, osL = .mapped a →
      a ≠ NULL ∧ (page_size * count) % (SIZE_MAX + 1) ≠ 0)
    (hW : osW ≠ NULL → (page_size * count) % (SIZE_MAX + 1) ≠ 0) :
    ((ak_page_requestPages_linux osL page_size addr count).1.start = NULL ↔
      (ak_page_requestPages_linux osL page_size addr count).1.count = 0) ∧
    (osW ≠ NULL →
      ((ak_page_requestPages_windows osW page_size addr count).1.start = NULL ↔
        (ak_page_requestPages_windows osW page_size addr count).1.count = 0)) ∧
    ∀ ps : AkPageChunk,
      (ak_page_returnPages_linux .ok page_size ps).2.1 = ⟨NULL, ps.count⟩ := by
  refine ⟨?_, ?_, ?_⟩
  · by_cases hov : count ≠ 0 ∧ SIZE_MAX / count < page_size
    · simp [ak_page_requestPages_linux, hov]
    · cases osL with
      | mapFailed => simp [ak_page_requestPages_linux, hov]
      | mapped a =>
          obtain ⟨ha, hlen⟩ := hL a rfl
          have hc : count ≠ 0 := by
            rintro rfl
            simp at hlen
          simp [ak_page_requestPages_linux, hov, NULL] at ha ⊢
          simp [ha, hc]
  · intro hw
    have hlen := hW hw
    have hc : count ≠ 0 := by
      rintro rfl
      simp at hlen
    by_cases hov : count ≠ 0 ∧ SIZE_MAX / count < page_size
    · simp [ak_page_requestPages_windows, hov]
    · simp [ak_page_requestPages_windows, hov, NULL] at hw ⊢
      simp [hw, hc]
  · intro ps
    simp [ak_page_returnPages_linux, MunmapResult.ret]

/-- Witness for requestPages_chunk_invariant_amended: a successful
4-page request at page_size 4096 (both builds), and a successful
release of a 4-page chunk. -/
theorem requestPages_chunk_invariant_amended_witness :
    ((ak_page_requestPages_linux (.mapped 8192) 4096 0 4).1.start = NULL ↔
      (ak_page_requestPages_linux (.mapped 8192) 4096 0 4).1.count = 0) ∧
    (ak_page_returnPages_linux .ok 4096 ⟨8192, 4⟩).2.1 = ⟨NULL, 4⟩ :=
  ⟨(requestPages_chunk_invariant_amended (.mapped 8192) 4096 4096 0 4
      (by intro a ha; cases ha; exact ⟨by decide, by decide⟩)
      (fun _ => by decide)).1,
    (requestPages_chunk_invariant_amended (.mapped 8192) 4096 4096 0 4
      (by intro a ha; cases ha; exact ⟨by decide, by decide⟩)
      (fun _ => by decide)).2.2 ⟨8192, 4⟩⟩

/-- Claim C4: on both builds, whenever the chunk returned by
ak_page_requestPages has a non-null start, its count is exactly the
requested count. -/
theorem requestPages_all_or_nothing
    (osL : MmapResult) (osW : Ptr) (page_size addr count : Nat) :
    ((ak_page_requestPages_linux osL page_size addr count).1.start ≠ NULL →
      (ak_page_requestPages_linux osL page_size addr count).1.count = count) ∧
    ((ak_page_requestPages_windows osW page_size addr count).1.start ≠ NULL →
      (ak_page_requestPages_windows osW page_size addr count).1.count = count) := by
  constructor
  · by_cases hov : count ≠ 0 ∧ SIZE_MAX / count < page_size
    · simp [ak_page_requestPages_linux, hov, NULL]
    · cases osL <;> simp [ak_page_requestPages_linux, hov, NULL]
  · by_cases hov : count ≠ 0 ∧ SIZE_MAX / count < page_size
    · simp [ak_page_requestPages_windows, hov, NULL]
    · simp [ak_page_requestPages_windows, hov, NULL]

/-- Witness for requestPages_all_or_nothing: successful 4-page
requests on both builds report count 4. -/
theorem requestPages_all_or_nothing_witness :
    (ak_page_requestPages_linux (.mapped 4096) 4096 0 4).1.count = 4 ∧
    (ak_page_requestPages_windows 4096 4096 0 4).1.count = 4 :=
  ⟨(requestPages_all_or_nothing (.mapped 4096) 4096 4096 0 4).1 (by decide),
   (requestPages_all_or_nothing (.mapped 4096) 4096 4096 0 4).2 (by decide)⟩

/-- Claim C5: on both builds, ak_page_returnPages either returns a
nonzero result and sets the chunk start to null (keeping its count),
or returns 0 and leaves the chunk exactly as it was. -/
theorem returnPages_success_or_untouched
    (osL : MunmapResult) (osW : Int) (page_size : Nat) (ps : AkPageChunk) :
    ((ak_page_returnPages_linux osL page_size ps).1 ≠ 0 →
      (ak_page_returnPages_linux osL page_size ps).2.1 = ⟨NULL, ps.count⟩) ∧
    ((ak_page_returnPages_linux osL page_size ps).1 = 0 →
      (ak_page_returnPages_linux osL page_size ps).2.1 = ps) ∧
    ((ak_page_returnPages_windows osW page_size ps).1 ≠ 0 →
      (ak_page_returnPages_windows osW page_size ps).2.1 = ⟨NULL, ps.count⟩) ∧
    ((ak_page_returnPages_windows osW page_size ps).1 = 0 →
      (ak_page_returnPages_windows osW page_size ps).2.1 = ps) := by
  refine ⟨?_, ?_, ?_, ?_⟩
  · cases osL <;> simp [ak_page_returnPages_linux, MunmapResult.ret]
  · cases osL <;> simp [ak_page_returnPages_linux, MunmapResult.ret]
  · by_cases h : osW = 0 <;> simp [ak_page_returnPages_windows, h]
  · by_cases h : osW = 0 <;> simp [ak_page_returnPages_windows, h]

/-- Witness for returnPages_success_or_untouched: a successful Linux
release clears the start, a failed Windows release leaves the chunk
unchanged. -/
theorem returnPages_success_or_untouched_witness :
    (ak_page_returnPages_linux .ok 4096 ⟨12288, 4⟩).2.1 = ⟨NULL, 4⟩ ∧
    (ak_page_returnPages_windows 0 4096 ⟨12288, 4⟩).2.1 = ⟨12288, 4⟩ :=
  ⟨(returnPages_success_or_untouched .ok 0 4096 ⟨12288, 4⟩).1 (by decide),
   (returnPages_success_or_untouched .ok 0 4096 ⟨12288, 4⟩).2.2.2 (by decide)⟩

/-- Claim C6, code-bug evidence: on the Windows build a request with
the non-null address hint 65536 whose VirtualAlloc call fails yields
the chunk (NULL, 1), which is neither a success at the hinted address
nor the null/zero-count failure chunk. -/
theorem requestPages_windows_hint_failure_chunk :
    ak_page_requestPages_windows NULL 4096 65536 1 =
      (⟨NULL, 1⟩, [OsCall.virtualAlloc 65536 4096]) := by decide

/-- Claim C7 counterexample: with page_size 2 ^ 32 and a chunk of
count 2 ^ 32, page_size * count equals 2 ^ 64 and overflows size_t,
yet ak_page_returnPages (Linux build) still issues one munmap call,
with the wrapped length 0, instead of detecting the overflow and
performing no OS call. -/
theorem returnPages_overflow_issues_os_call :
    ak_page_returnPages_linux .failed (2 ^ 32) ⟨4096, 2 ^ 32⟩ =
      (0, ⟨4096, 2 ^ 32⟩, [OsCall.munmap 4096 0]) := by decide

/-- Claim C7 as amended: ak_page_returnPages performs no overflow
detection at all: on the Linux build it always issues exactly one
munmap call whose length is page_size * count reduced modulo 2 ^ 64,
and on the Windows build it always issues exactly one VirtualFree
call, which takes no length. -/
theorem returnPages_no_overflow_check
    (osL : MunmapResult) (osW : Int) (page_size : Nat) (ps : AkPageChunk) :
    (ak_page_returnPages_linux osL page_size ps).2.2 =
      [OsCall.munmap ps.start ((page_size * ps.count) % (SIZE_MAX + 1))] ∧
    (ak_page_returnPages_windows osW page_size ps).2.2 =
      [OsCall.virtualFree ps.start] := by
  constructor
  · cases osL <;> simp [ak_page_returnPages_linux, MunmapResult.ret]
  · by_cases h : osW = 0 <;> simp [ak_page_returnPages_windows, h]

/-- Claim C8, code-bug evidence: ak_alloc and ak_resize are each
defined twice with different parameter lists (a C11 6.10.3p2
constraint violation, with the surviving definition expanding to an
unexpandable self-reference), and the replacement lists of ak_resize
and ak_free dispatch through the identifier Alloc, which is not among
their parameters, instead of the pAlloc argument the claim names. -/
theorem ak_dispatch_defines_diverge :
    (ak_alloc_define_v1.name = ak_alloc_define_v2.name ∧
      ak_alloc_define_v1.params ≠ ak_alloc_define_v2.params ∧
      "ak_alloc" ∈ ak_alloc_define_v2.body) ∧
    (ak_resize_define_v1.name = ak_resize_define_v2.name ∧
      ak_resize_define_v1.params ≠ ak_resize_define_v2.params ∧
      "Alloc" ∈ ak_resize_define_v1.body ∧
      "Alloc" ∉ ak_resize_define_v1.params) ∧
    ("Alloc" ∈ ak_free_define.body ∧
      "Alloc" ∉ ak_free_define.params ∧
      "pAlloc" ∈ ak_free_define.params) := by decide

/-- Claim C9: on the Linux build, given that sysconf returns -1 on
failure and the positive page size otherwise, ak_page_getPageSize
returns 0 exactly on failure and the positive reported value on
success; on the Windows build, whose query cannot fail, it returns
the positive dwPageSize reported by GetSystemInfo; and the Linux
result is determined by the value the OS reports, so it is stable
across calls within a run in which the OS reports a stable value. -/
theorem getPageSize_contract
    (s : Int) (dw : Nat)
    (hs : s = -1 ∨ 0 < s)
    (hdw : 0 < dw) :
    (ak_page_getPageSize_linux s = 0 ↔ s = -1) ∧
    (0 < s → 0 < ak_page_getPageSize_linux s ∧
      ak_page_getPageSize_linux s = s.toNat) ∧
    (ak_page_getPageSize_windows dw = dw ∧
      0 < ak_page_getPageSize_windows dw) ∧
    (∀ s₂ : Int, s₂ = s →
      ak_page_getPageSize_linux s₂ = ak_page_getPageSize_linux s) := by
  refine ⟨?_, ?_, ⟨rfl, hdw⟩, fun s₂ h => by rw [h]⟩
  · unfold ak_page_getPageSize_linux
    rcases hs with rfl | hpos
    · norm_num
    · rw [if_neg (by omega)]
      constructor
      · intro h0; omega
      · intro h1; omega
  · intro hpos
    unfold ak_page_getPageSize_linux
    rw [if_neg (by omega)]
    exact ⟨by omega, rfl⟩

/-- Witness for getPageSize_contract with both platforms reporting a
page size of 4096. -/
theorem getPageSize_contract_witness :
    (ak_page_getPageSize_linux 4096 = 0 ↔ (4096 : Int) = -1) ∧
    (0 < ak_page_getPageSize_linux 4096 ∧
      ak_page_getPageSize_linux 4096 = (4096 : Int).toNat) ∧
    (ak_page_getPageSize_windows 4096 = 4096 ∧
      0 < ak_page_getPageSize_windows 4096) :=
  ⟨(getPageSize_contract 4096 4096 (Or.inr (by decide)) (by decide)).1,
   (getPageSize_contract 4096 4096 (Or.inr (by decide)) (by decide)).2.1
     (by decide),
   (getPageSize_contract 4096 4096 (Or.inr (by decide)) (by decide)).2.2.1⟩

/-- Claim C10: on both builds ak_page_returnPages never modifies the
chunk count, so a successfully released chunk still carries its
original, possibly nonzero, page count. -/
theorem returnPages_preserves_count
    (osL : MunmapResult) (osW : Int) (page_size : Nat) (ps : AkPageChunk) :
    (ak_page_returnPages_linux osL page_size ps).2.1.count = ps.count ∧
    (ak_page_returnPages_windows osW page_size ps).2.1.count = ps.count := by
  constructor
  · cases osL <;> simp [ak_page_returnPages_linux, MunmapResult.ret]
  · by_cases h : osW = 0 <;> simp [ak_page_returnPages_windows, h]

end Allockit
